import Mathlib

/-!
Shallow embedding of the zk-coprocessor-bridge Solana program
(src/solana-program/programs/zk-coprocessor-program/src/lib.rs) and proofs
about its instruction handlers.

The program has four instructions:
* `post_wormhole_message` — reads the Wormhole bridge fee from the core
  bridge config account, pays it, and invokes `post_message` via CPI;
* `init_receipt_config` — one-time creation of the `ReceiptConfig` PDA;
* `record_receipt_from_vaa` — records a `Receipt` keyed by
  (emitter, sequence) after checking the posted-VAA account owner and the
  configured emitter;
* `record_receipt_direct` — admin-only recording of a `Receipt` with a
  zero `vaa_account` sentinel.

Machine integers (u8/u16/u32/u64/i64) are modelled as `Nat`/`Int`; none of
the handlers perform arithmetic that can overflow (the only arithmetic is
a lamport transfer, which the system program rejects on insufficient
funds, modelled by the `insufficientFunds` error).  Solana transactions
are atomic: a failing instruction commits nothing, which is modelled by
the `commit` functions returning the pre-state on error.
-/

/-- A Solana public key (32 bytes), modelled abstractly as a `Nat`.
`Pubkey::default()` is the all-zero key. -/
structure Pubkey where
  val : Nat
deriving DecidableEq

def Pubkey.default : Pubkey := ⟨0⟩

/-- A 32-byte emitter address (`[u8; 32]` in the source), modelled as a
byte list; the handlers only ever compare it for equality. -/
abbrev EmitterAddr := List Nat

/-- The program's error enum `ZkError` (lib.rs `#[error_code]`). -/
inductive ZkError where
  | ConfigOwnerMismatch
  | BridgeDeserialize
  | NotAdmin
  | InvalidPostedVaaOwner
  | EmitterAddressMismatch
deriving DecidableEq

/-- Errors an instruction can surface: the program's own `ZkError`s plus
the runtime/Anchor-level failures relevant here (`accountAlreadyInUse` is
the system program failing `create_account` on an `init` constraint when
the PDA already exists; `accountMissing` is Anchor account validation
failing because the `cfg` PDA does not exist; `insufficientFunds` is the
system transfer failing). -/
inductive ProgramError where
  | zk (e : ZkError)
  | accountAlreadyInUse
  | accountMissing
  | insufficientFunds
deriving DecidableEq

/-! ## Wormhole `BridgeData` (fee source)

`post_wormhole_message` decodes the core bridge config account bytes with
`wormhole::accounts::BridgeData::try_deserialize` and reads `fee()`.
The layout is Borsh little-endian: `guardian_set_index: u32`,
`last_lamports: u64`, then `BridgeConfig { guardian_set_expiration_time:
u32, fee: u64 }`. -/

/-- Read `n` bytes little-endian from the front of a byte list, returning
the value and the remaining bytes; fails when fewer than `n` bytes
remain. -/
def readLE : Nat → List Nat → Option (Nat × List Nat)
  | 0, bs => some (0, bs)
  | _ + 1, [] => none
  | n + 1, b :: bs =>
    match readLE n bs with
    | some (v, rest) => some (b + 256 * v, rest)
    | none => none

structure BridgeConfig where
  guardian_set_expiration_time : Nat
  fee : Nat
deriving DecidableEq

structure BridgeData where
  guardian_set_index : Nat
  last_lamports : Nat
  config : BridgeConfig
deriving DecidableEq

/-- Returns the current bridge fee (`BridgeData::fee()` in the SDK). -/
def BridgeData.fee (b : BridgeData) : Nat := b.config.fee

/-- Decode `BridgeData` from raw account bytes (`try_deserialize`): Borsh decode of
the fields above; trailing bytes are ignored, truncated input fails. -/
def BridgeData.try_deserialize (bs : List Nat) : Option BridgeData := do
  let (gsi, bs) ← readLE 4 bs
  let (ll, bs) ← readLE 8 bs
  let (exp, bs) ← readLE 4 bs
  let (fee, _) ← readLE 8 bs
  some ⟨gsi, ll, ⟨exp, fee⟩⟩

/-! ## `post_wormhole_message` -/

/-- Commitment level `wormhole::types::Finality`. -/
inductive Finality where
  | Confirmed
  | Finalized
deriving DecidableEq

/-- The CPI to `wormhole::instructions::post_message`. -/
structure PostMessageCall where
  program : Pubkey
  batch_id : Nat
  payload : List Nat
  finality : Finality
deriving DecidableEq

/-- The observable value-moving / cross-program effects of
`post_wormhole_message`, in execution order. -/
inductive Effect where
  | transfer (source dest : Pubkey) (lamports : Nat)
  | cpiPostMessage (c : PostMessageCall)
deriving DecidableEq

def Effect.isTransfer : Effect → Bool
  | .transfer _ _ _ => true
  | .cpiPostMessage _ => false

/-- The accounts context of `PostWormholeMessage` (the fields the handler
reads), plus the lamport balances of payer and fee collector. -/
structure PostAccounts where
  config_owner : Pubkey
  config_data : List Nat
  payer : Pubkey
  fee_collector : Pubkey
  payer_lamports : Nat
  collector_lamports : Nat
  wormhole_program : Pubkey
deriving DecidableEq

/-- Outcome of a successful `post_wormhole_message`: final balances and
the effect trace. -/
structure PostResult where
  payer_lamports : Nat
  collector_lamports : Nat
  effects : List Effect
deriving DecidableEq

/-- Handler `post_wormhole_message` (lib.rs lines 17–82).  In source order: map
`finality_flag` (`0 ↦ Confirmed`, anything else `↦ Finalized` — the
mapping itself never fails), require the config account owner to be the
Wormhole program, decode `BridgeData` and read the fee, transfer the fee
from payer to collector when it is positive (no instruction at all when
it is zero), then CPI `post_message`. -/
def post_wormhole_message (a : PostAccounts) (batch_id : Nat)
    (payload : List Nat) (finality_flag : Nat) :
    Except ProgramError PostResult :=
  let fin := if finality_flag = 0 then Finality.Confirmed else Finality.Finalized
  if a.config_owner ≠ a.wormhole_program then
    .error (.zk .ConfigOwnerMismatch)
  else
    match BridgeData.try_deserialize a.config_data with
    | none => .error (.zk .BridgeDeserialize)
    | some bridge_data =>
      let fee := bridge_data.fee
      if fee > 0 then
        if a.payer_lamports < fee then
          .error .insufficientFunds
        else
          .ok ⟨a.payer_lamports - fee, a.collector_lamports + fee,
            [Effect.transfer a.payer a.fee_collector fee,
             Effect.cpiPostMessage ⟨a.wormhole_program, batch_id, payload, fin⟩]⟩
      else
        .ok ⟨a.payer_lamports, a.collector_lamports,
          [Effect.cpiPostMessage ⟨a.wormhole_program, batch_id, payload, fin⟩]⟩

/-! ## Receipt registry state -/

/-- The `ReceiptConfig` account (lib.rs lines 254–263). -/
structure ReceiptConfig where
  admin : Pubkey
  evm_chain : Nat
  emitter : EmitterAddr
  bump : Nat
deriving DecidableEq

/-- The `Receipt` account (lib.rs lines 265–275). -/
structure Receipt where
  emitter : EmitterAddr
  sequence : Nat
  vaa_account : Pubkey
  posted_timestamp : Int
  bump : Nat
deriving DecidableEq

/-- The `ReceiptRecorded` event (lib.rs lines 277–282). -/
structure ReceiptRecorded where
  emitter : EmitterAddr
  sequence : Nat
  vaa : Pubkey
deriving DecidableEq

/-- A Receipt PDA is derived from seeds
`[b"receipt", emitter, sequence.to_be_bytes()]`, so the address is in
bijection with the pair (emitter, sequence); the account space is
modelled as a finite map keyed by that pair. -/
abbrev ReceiptKey := EmitterAddr × Nat

/-- The program-owned account state: the singleton `cfg` PDA (seeds
`[b"cfg"]`), when it exists, and the Receipt PDAs. -/
structure RegistryState where
  cfg : Option ReceiptConfig
  receipts : List (ReceiptKey × Receipt)
deriving DecidableEq

/-- Look up the Receipt account at the PDA derived from `k`. -/
def lookupReceipt : List (ReceiptKey × Receipt) → ReceiptKey → Option Receipt
  | [], _ => none
  | (k', r) :: rest, k => if k = k' then some r else lookupReceipt rest k

/-- Write the Receipt account at the PDA derived from `k`: replaces the
existing account data if the PDA exists, creates it otherwise.  This is
the combined effect of Anchor's `init_if_needed` constraint followed by
the handler assigning every field. -/
def storeReceipt : List (ReceiptKey × Receipt) → ReceiptKey → Receipt →
    List (ReceiptKey × Receipt)
  | [], k, r => [(k, r)]
  | (k', r') :: rest, k, r =>
    if k = k' then (k, r) :: rest else (k', r') :: storeReceipt rest k r

def RegistryState.lookup (st : RegistryState) (k : ReceiptKey) : Option Receipt :=
  lookupReceipt st.receipts k

/-! ## Instruction handlers for the registry -/

/-- The non-state inputs of `RecordReceiptFromVaa`: the posted-VAA
account's owner and address, the Wormhole program id, the bump Anchor
found for the receipt PDA, and the clock sysvar's timestamp. -/
structure VaaCtx where
  posted_vaa_owner : Pubkey
  posted_vaa_key : Pubkey
  wormhole_program : Pubkey
  receipt_bump : Nat
  now : Int
deriving DecidableEq

/-- Handler `record_receipt_from_vaa` (lib.rs lines 99–127, accounts at
201–228).  Anchor account validation requires the `cfg` PDA to exist;
the `receipt` account uses `init_if_needed`, so an already-existing
receipt PDA does NOT abort validation.  The handler then requires the
posted-VAA owner to be the Wormhole program, requires `emitter` to equal
`cfg.emitter`, assigns every field of the receipt, and emits
`ReceiptRecorded`. -/
def record_receipt_from_vaa (st : RegistryState) (ctx : VaaCtx)
    (emitter : EmitterAddr) (sequence : Nat) :
    Except ProgramError (RegistryState × List ReceiptRecorded) :=
  match st.cfg with
  | none => .error .accountMissing
  | some cfg =>
    if ctx.posted_vaa_owner ≠ ctx.wormhole_program then
      .error (.zk .InvalidPostedVaaOwner)
    else if emitter ≠ cfg.emitter then
      .error (.zk .EmitterAddressMismatch)
    else
      let receipt : Receipt :=
        ⟨emitter, sequence, ctx.posted_vaa_key, ctx.now, ctx.receipt_bump⟩
      .ok ⟨⟨st.cfg, storeReceipt st.receipts (emitter, sequence) receipt⟩,
        [⟨emitter, sequence, ctx.posted_vaa_key⟩]⟩

/-- Handler `record_receipt_direct` (lib.rs lines 130–151, accounts at 230–252).
The `receipt` account again uses `init_if_needed`.  The handler requires
the signing `admin` account to equal `cfg.admin`, then stores the
caller-supplied emitter and sequence with `vaa_account =
Pubkey::default()` and emits `ReceiptRecorded`. -/
def record_receipt_direct (st : RegistryState) (admin_signer : Pubkey)
    (receipt_bump : Nat) (now : Int)
    (emitter : EmitterAddr) (sequence : Nat) :
    Except ProgramError (RegistryState × List ReceiptRecorded) :=
  match st.cfg with
  | none => .error .accountMissing
  | some cfg =>
    if cfg.admin ≠ admin_signer then
      .error (.zk .NotAdmin)
    else
      let receipt : Receipt :=
        ⟨emitter, sequence, Pubkey.default, now, receipt_bump⟩
      .ok ⟨⟨st.cfg, storeReceipt st.receipts (emitter, sequence) receipt⟩,
        [⟨emitter, sequence, Pubkey.default⟩]⟩

/-- Handler `init_receipt_config` (lib.rs lines 85–96, accounts at 185–199).
The `cfg` PDA uses the plain `init` constraint: creation fails when the
account already exists.  On success the handler stores the signing
caller's key as `admin` together with the supplied chain id and
emitter, and the bump Anchor found for the PDA. -/
def init_receipt_config (st : RegistryState) (admin_signer : Pubkey)
    (cfg_bump : Nat) (evm_chain : Nat) (emitter : EmitterAddr) :
    Except ProgramError RegistryState :=
  match st.cfg with
  | some _ => .error .accountAlreadyInUse
  | none => .ok ⟨some ⟨admin_signer, evm_chain, emitter, cfg_bump⟩, st.receipts⟩

/-- Solana commits an instruction's writes only when it succeeds; on any
error the whole transaction rolls back.  `commitReceiptTx` is the state
the ledger holds after the transaction. -/
def commitReceiptTx (st : RegistryState)
    (r : Except ProgramError (RegistryState × List ReceiptRecorded)) :
    RegistryState :=
  match r with
  | .ok (st', _) => st'
  | .error _ => st

/-! ## Helper lemmas -/

/-- Writing a receipt at key `k` makes it the receipt found at `k`. -/
theorem lookupReceipt_storeReceipt (rs : List (ReceiptKey × Receipt))
    (k : ReceiptKey) (r : Receipt) :
    lookupReceipt (storeReceipt rs k r) k = some r := by
  induction rs with
  | nil => simp [storeReceipt, lookupReceipt]
  | cons hd tl ih =>
    rcases hd with ⟨k', r'⟩
    by_cases hk : k = k'
    · simp [storeReceipt, lookupReceipt, hk]
    · simp [storeReceipt, lookupReceipt, hk, ih]

/-! ## Concrete fixtures used by counterexamples and witnesses -/

/-- A well-formed `PostWormholeMessage` context: config owned by the
Wormhole program (key 77) whose bytes decode to fee `5`, payer key 1 with
100 lamports, fee collector key 2 with 0 lamports. -/
def cexPostAccounts : PostAccounts :=
  ⟨⟨77⟩, List.replicate 16 0 ++ [5, 0, 0, 0, 0, 0, 0, 0], ⟨1⟩, ⟨2⟩, 100, 0, ⟨77⟩⟩

/-- A `PostWormholeMessage` context whose config account is owned by key
5, not by the Wormhole program (key 77). -/
def badOwnerAccounts : PostAccounts := ⟨⟨5⟩, [], ⟨1⟩, ⟨2⟩, 0, 0, ⟨77⟩⟩

/-- The configured expected emitter: 32 bytes of `9`. -/
def E0 : EmitterAddr := List.replicate 32 9

/-- A registry config: admin key 10, chain 2, expected emitter `E0`. -/
def cfg0 : ReceiptConfig := ⟨⟨10⟩, 2, E0, 255⟩

/-- Registry state right after `init_receipt_config`: `cfg0`, no
receipts. -/
def st0 : RegistryState := ⟨some cfg0, []⟩

/-- A first posted-VAA context: VAA account key 41, owned by the Wormhole
program (key 77), clock 1000. -/
def ctx1 : VaaCtx := ⟨⟨77⟩, ⟨41⟩, ⟨77⟩, 254, 1000⟩

/-- A second posted-VAA context for the same pair: a different VAA
account (key 42), also owned by the Wormhole program, clock 2000. -/
def ctx2 : VaaCtx := ⟨⟨77⟩, ⟨42⟩, ⟨77⟩, 254, 2000⟩

/-- A posted-VAA context whose VAA account is owned by key 66, not by the
Wormhole program. -/
def ctxBadOwner : VaaCtx := ⟨⟨66⟩, ⟨41⟩, ⟨77⟩, 254, 1000⟩

/-- Registry state after recording receipt (E0, 7) from `ctx1`. -/
def st1 : RegistryState :=
  commitReceiptTx st0 (record_receipt_from_vaa st0 ctx1 E0 7)

/-! ## Claim theorems -/

/-- C3: whenever `post_wormhole_message` succeeds, the fee `f` decoded
from the hub's fee-config account is transferred exactly — the payer's
balance drops by `f` and the collector's rises by `f` — and the effect
trace contains exactly one value-transfer instruction of amount `f` when
`f > 0` and none at all when `f = 0`. -/
theorem claim_C3_exact_fee_transfer (a : PostAccounts) (batch_id : Nat)
    (payload : List Nat) (finality_flag : Nat) (r : PostResult)
    (h : post_wormhole_message a batch_id payload finality_flag = .ok r) :
    ∃ bridge_data,
      BridgeData.try_deserialize a.config_data = some bridge_data ∧
      r.payer_lamports + bridge_data.fee = a.payer_lamports ∧
      r.collector_lamports = a.collector_lamports + bridge_data.fee ∧
      r.effects.filter (fun e => e.isTransfer) =
        (if bridge_data.fee = 0 then []
         else [Effect.transfer a.payer a.fee_collector bridge_data.fee]) := by
  simp only [post_wormhole_message] at h
  split at h
  · exact Except.noConfusion h
  split at h
  · exact Except.noConfusion h
  next bridge_data hbd =>
    split at h
    next hfee =>
      split at h
      · exact Except.noConfusion h
      next hbal =>
        injection h with h
        subst h
        refine ⟨bridge_data, hbd, ?_, rfl, ?_⟩
        · dsimp only
          omega
        · have hne : ¬ bridge_data.fee = 0 := by omega
          dsimp only
          rw [if_neg hne]
          simp [Effect.isTransfer, List.filter]
    next hfee =>
      injection h with h
      subst h
      refine ⟨bridge_data, hbd, ?_, ?_, ?_⟩
      · dsimp only
        omega
      · dsimp only
        omega
      · have h0 : bridge_data.fee = 0 := by omega
        dsimp only
        rw [if_pos h0]
        simp [Effect.isTransfer, List.filter]

/-- C3 witness: posting with the fixture accounts (fee 5, payer balance
100) succeeds and transfers exactly 5 lamports. -/
theorem claim_C3_witness :
    ∃ bridge_data,
      BridgeData.try_deserialize cexPostAccounts.config_data = some bridge_data ∧
      (PostResult.mk 95 5 [Effect.transfer ⟨1⟩ ⟨2⟩ 5,
          Effect.cpiPostMessage ⟨⟨77⟩, 7, [1, 2, 3], Finality.Confirmed⟩]).payer_lamports
          + bridge_data.fee = cexPostAccounts.payer_lamports ∧
      (PostResult.mk 95 5 [Effect.transfer ⟨1⟩ ⟨2⟩ 5,
          Effect.cpiPostMessage ⟨⟨77⟩, 7, [1, 2, 3], Finality.Confirmed⟩]).collector_lamports
          = cexPostAccounts.collector_lamports + bridge_data.fee ∧
      (PostResult.mk 95 5 [Effect.transfer ⟨1⟩ ⟨2⟩ 5,
          Effect.cpiPostMessage ⟨⟨77⟩, 7, [1, 2, 3], Finality.Confirmed⟩]).effects.filter
            (fun e => e.isTransfer) =
        (if bridge_data.fee = 0 then []
         else [Effect.transfer cexPostAccounts.payer cexPostAccounts.fee_collector
           bridge_data.fee]) :=
  claim_C3_exact_fee_transfer cexPostAccounts 7 [1, 2, 3] 0
    ⟨95, 5, [Effect.transfer ⟨1⟩ ⟨2⟩ 5,
      Effect.cpiPostMessage ⟨⟨77⟩, 7, [1, 2, 3], Finality.Confirmed⟩]⟩ (by rfl)

/-- C2 counterexample: with `finality_flag = 2` (outside {0, 1}) and a
valid fee source (fee 5), `post_wormhole_message` does NOT fail — it
succeeds, transfers the 5-lamport fee, and relays with `Finalized` — so
the claim that such a flag fails before any fee is paid is false on the
code. -/
theorem claim_C2_counterexample :
    ¬ (2 = 0 ∨ 2 = 1) ∧
    post_wormhole_message cexPostAccounts 7 [1, 2, 3] 2 =
      .ok ⟨95, 5, [Effect.transfer ⟨1⟩ ⟨2⟩ 5,
        Effect.cpiPostMessage ⟨⟨77⟩, 7, [1, 2, 3], Finality.Finalized⟩]⟩ :=
  ⟨by decide, by rfl⟩

/-- C2 (amended): a `finality_flag` outside {0, 1} is not rejected —
`0` maps to `Confirmed` and every other value maps to `Finalized` — and
the original ordering still holds: in every successful run the relay CPI
is the last effect (here with `Finalized`), preceded only by fee
transfers. -/
theorem claim_C2_amended_nonzero_flag (a : PostAccounts) (batch_id : Nat)
    (payload : List Nat) (finality_flag : Nat) (r : PostResult)
    (hflag : finality_flag ≠ 0)
    (h : post_wormhole_message a batch_id payload finality_flag = .ok r) :
    r.effects.getLast? = some (Effect.cpiPostMessage
      ⟨a.wormhole_program, batch_id, payload, Finality.Finalized⟩) ∧
    ∀ e ∈ r.effects.dropLast, e.isTransfer = true := by
  simp only [post_wormhole_message, if_neg hflag] at h
  split at h
  · exact Except.noConfusion h
  split at h
  · exact Except.noConfusion h
  next bridge_data hbd =>
    split at h
    · split at h
      · exact Except.noConfusion h
      · injection h with h
        subst h
        refine ⟨rfl, ?_⟩
        intro e he
        simp only [List.dropLast] at he
        simp at he
        subst he
        rfl
    · injection h with h
      subst h
      refine ⟨rfl, ?_⟩
      intro e he
      simp at he

/-- C2 amended witness: the flag-2 run from the counterexample fixture
ends in a `Finalized` relay CPI preceded only by the fee transfer. -/
theorem claim_C2_amended_witness :
    (PostResult.mk 95 5 [Effect.transfer ⟨1⟩ ⟨2⟩ 5,
        Effect.cpiPostMessage ⟨⟨77⟩, 7, [1, 2, 3],
          Finality.Finalized⟩]).effects.getLast? =
      some (Effect.cpiPostMessage
        ⟨cexPostAccounts.wormhole_program, 7, [1, 2, 3], Finality.Finalized⟩) ∧
    ∀ e ∈ (PostResult.mk 95 5 [Effect.transfer ⟨1⟩ ⟨2⟩ 5,
        Effect.cpiPostMessage ⟨⟨77⟩, 7, [1, 2, 3],
          Finality.Finalized⟩]).effects.dropLast, e.isTransfer = true :=
  claim_C2_amended_nonzero_flag cexPostAccounts 7 [1, 2, 3] 2
    ⟨95, 5, [Effect.transfer ⟨1⟩ ⟨2⟩ 5,
      Effect.cpiPostMessage ⟨⟨77⟩, 7, [1, 2, 3], Finality.Finalized⟩]⟩
    (by decide) (by rfl)

/-- C7: when the fee-config account is not owned by the Wormhole program,
or its bytes do not decode as `BridgeData`, `post_wormhole_message` fails
with the corresponding distinct named error (`ConfigOwnerMismatch`
resp. `BridgeDeserialize`) and never succeeds, so neither the fee
transfer nor the relay CPI takes effect (error runs produce no
effects). -/
theorem claim_C7_fee_source_invalid (a : PostAccounts) (batch_id : Nat)
    (payload : List Nat) (finality_flag : Nat)
    (h : a.config_owner ≠ a.wormhole_program ∨
      BridgeData.try_deserialize a.config_data = none) :
    post_wormhole_message a batch_id payload finality_flag =
      .error (if a.config_owner = a.wormhole_program
              then ProgramError.zk .BridgeDeserialize
              else ProgramError.zk .ConfigOwnerMismatch) ∧
    ∀ r : PostResult, post_wormhole_message a batch_id payload finality_flag ≠ .ok r := by
  have h1 : post_wormhole_message a batch_id payload finality_flag =
      .error (if a.config_owner = a.wormhole_program
              then ProgramError.zk .BridgeDeserialize
              else ProgramError.zk .ConfigOwnerMismatch) := by
    by_cases hown : a.config_owner = a.wormhole_program
    · rcases h with hown' | hbd
      · exact absurd hown hown'
      · rw [if_pos hown]
        simp [post_wormhole_message, hown, hbd]
    · rw [if_neg hown]
      simp [post_wormhole_message, hown]
  refine ⟨h1, ?_⟩
  intro r hr
  rw [h1] at hr
  exact Except.noConfusion hr

/-- C7 witness: with the config account owned by key 5 instead of the
Wormhole program, the call fails with `ConfigOwnerMismatch` and has no
successful outcome. -/
theorem claim_C7_witness :
    post_wormhole_message badOwnerAccounts 0 [] 0 =
      .error (if badOwnerAccounts.config_owner = badOwnerAccounts.wormhole_program
              then ProgramError.zk .BridgeDeserialize
              else ProgramError.zk .ConfigOwnerMismatch) ∧
    ∀ r : PostResult, post_wormhole_message badOwnerAccounts 0 [] 0 ≠ .ok r :=
  claim_C7_fee_source_invalid badOwnerAccounts 0 [] 0 (Or.inl (by decide))

/-- C1: evaluation of the code at the failing input.  After receipt
(E0, 7) is recorded from VAA account 41 at time 1000, a second
`record_receipt_from_vaa` for the SAME pair (E0, 7) — now citing VAA
account 42 at time 2000 — does not fail: the receipt PDA is declared
`init_if_needed`, so the call succeeds again and overwrites the stored
record's `vaa_account` (41 → 42) and `posted_timestamp` (1000 → 2000),
contradicting both "succeeds at most once" and "a Receipt, once created,
is never mutated". -/
theorem claim_C1_duplicate_record_overwrites :
    st1.lookup (E0, 7) = some ⟨E0, 7, ⟨41⟩, 1000, 254⟩ ∧
    record_receipt_from_vaa st1 ctx2 E0 7 =
      .ok (⟨some cfg0, [((E0, 7), ⟨E0, 7, ⟨42⟩, 2000, 254⟩)]⟩,
        [⟨E0, 7, ⟨42⟩⟩]) ∧
    (commitReceiptTx st1 (record_receipt_from_vaa st1 ctx2 E0 7)).lookup (E0, 7) =
      some ⟨E0, 7, ⟨42⟩, 2000, 254⟩ ∧
    (⟨41⟩ : Pubkey) ≠ ⟨42⟩ :=
  ⟨rfl, rfl, rfl, by decide⟩

/-- C4: a proof-backed recording whose `emitter` argument differs from
`ReceiptConfig.emitter` (with the posted-VAA owner check passing, so the
emitter check is the one that fires) fails with
`EmitterAddressMismatch`, and the committed registry state is exactly
the pre-call state — no Receipt is created. -/
theorem claim_C4_emitter_mismatch_fails (st : RegistryState) (ctx : VaaCtx)
    (cfg : ReceiptConfig) (emitter : EmitterAddr) (sequence : Nat)
    (hcfg : st.cfg = some cfg)
    (hown : ctx.posted_vaa_owner = ctx.wormhole_program)
    (hne : emitter ≠ cfg.emitter) :
    record_receipt_from_vaa st ctx emitter sequence =
      .error (.zk .EmitterAddressMismatch) ∧
    commitReceiptTx st (record_receipt_from_vaa st ctx emitter sequence) = st := by
  have h1 : record_receipt_from_vaa st ctx emitter sequence =
      .error (.zk .EmitterAddressMismatch) := by
    simp [record_receipt_from_vaa, hcfg, hown, hne]
  refine ⟨h1, ?_⟩
  rw [h1]
  rfl

/-- C4 witness: recording with emitter 32×8 against a config expecting
32×9 fails with `EmitterAddressMismatch` and leaves the registry
unchanged. -/
theorem claim_C4_witness :
    record_receipt_from_vaa st0 ctx1 (List.replicate 32 8) 7 =
      .error (.zk .EmitterAddressMismatch) ∧
    commitReceiptTx st0 (record_receipt_from_vaa st0 ctx1 (List.replicate 32 8) 7) = st0 :=
  claim_C4_emitter_mismatch_fails st0 ctx1 cfg0 (List.replicate 32 8) 7
    rfl rfl (by decide)

/-- C5: an administrator-asserted recording whose signing identity is
not `ReceiptConfig.admin` fails with `NotAdmin`, and the committed
registry state is exactly the pre-call state — no Receipt is created. -/
theorem claim_C5_not_admin_fails (st : RegistryState) (cfg : ReceiptConfig)
    (admin_signer : Pubkey) (receipt_bump : Nat) (now : Int)
    (emitter : EmitterAddr) (sequence : Nat)
    (hcfg : st.cfg = some cfg)
    (hne : admin_signer ≠ cfg.admin) :
    record_receipt_direct st admin_signer receipt_bump now emitter sequence =
      .error (.zk .NotAdmin) ∧
    commitReceiptTx st
      (record_receipt_direct st admin_signer receipt_bump now emitter sequence) = st := by
  have h1 : record_receipt_direct st admin_signer receipt_bump now emitter sequence =
      .error (.zk .NotAdmin) := by
    simp [record_receipt_direct, hcfg, Ne.symm hne]
  refine ⟨h1, ?_⟩
  rw [h1]
  rfl

/-- C5 witness: signer key 11 (admin is key 10) is rejected with
`NotAdmin` and the registry is unchanged. -/
theorem claim_C5_witness :
    record_receipt_direct st0 ⟨11⟩ 254 1000 E0 7 = .error (.zk .NotAdmin) ∧
    commitReceiptTx st0 (record_receipt_direct st0 ⟨11⟩ 254 1000 E0 7) = st0 :=
  claim_C5_not_admin_fails st0 cfg0 ⟨11⟩ 254 1000 E0 7 rfl (by decide)

/-- C6: a proof-backed recording whose posted-VAA account is not owned
by the Wormhole program fails with `InvalidPostedVaaOwner` — this is the
first check in the handler body — and the committed registry state is
exactly the pre-call state, so no Receipt state is committed. -/
theorem claim_C6_invalid_vaa_owner_fails (st : RegistryState) (ctx : VaaCtx)
    (cfg : ReceiptConfig) (emitter : EmitterAddr) (sequence : Nat)
    (hcfg : st.cfg = some cfg)
    (hown : ctx.posted_vaa_owner ≠ ctx.wormhole_program) :
    record_receipt_from_vaa st ctx emitter sequence =
      .error (.zk .InvalidPostedVaaOwner) ∧
    commitReceiptTx st (record_receipt_from_vaa st ctx emitter sequence) = st := by
  have h1 : record_receipt_from_vaa st ctx emitter sequence =
      .error (.zk .InvalidPostedVaaOwner) := by
    simp [record_receipt_from_vaa, hcfg, hown]
  refine ⟨h1, ?_⟩
  rw [h1]
  rfl

/-- C6 witness: a posted-VAA account owned by key 66 (Wormhole is key
77) is rejected with `InvalidPostedVaaOwner` and the registry is
unchanged. -/
theorem claim_C6_witness :
    record_receipt_from_vaa st0 ctxBadOwner E0 7 =
      .error (.zk .InvalidPostedVaaOwner) ∧
    commitReceiptTx st0 (record_receipt_from_vaa st0 ctxBadOwner E0 7) = st0 :=
  claim_C6_invalid_vaa_owner_fails st0 ctxBadOwner cfg0 E0 7 rfl (by decide)

/-- C8: a successful administrator-asserted recording stores the
caller-supplied emitter and sequence exactly as given, with
`vaa_account` set to the zero sentinel `Pubkey::default()`.  No
hypothesis relates `emitter` to `cfg.emitter`: the handler performs no
cross-check of the emitter against `ReceiptConfig.emitter` (the witness
exercises this with an emitter different from the configured one). -/
theorem claim_C8_direct_receipt_fields (st : RegistryState)
    (cfg : ReceiptConfig) (admin_signer : Pubkey) (receipt_bump : Nat)
    (now : Int) (emitter : EmitterAddr) (sequence : Nat)
    (hcfg : st.cfg = some cfg)
    (hadm : admin_signer = cfg.admin) :
    record_receipt_direct st admin_signer receipt_bump now emitter sequence =
      .ok (⟨st.cfg, storeReceipt st.receipts (emitter, sequence)
            ⟨emitter, sequence, Pubkey.default, now, receipt_bump⟩⟩,
           [⟨emitter, sequence, Pubkey.default⟩]) ∧
    (commitReceiptTx st
      (record_receipt_direct st admin_signer receipt_bump now emitter sequence)).lookup
        (emitter, sequence) =
      some ⟨emitter, sequence, Pubkey.default, now, receipt_bump⟩ := by
  have h1 : record_receipt_direct st admin_signer receipt_bump now emitter sequence =
      .ok (⟨st.cfg, storeReceipt st.receipts (emitter, sequence)
            ⟨emitter, sequence, Pubkey.default, now, receipt_bump⟩⟩,
           [⟨emitter, sequence, Pubkey.default⟩]) := by
    simp [record_receipt_direct, hcfg, hadm]
  refine ⟨h1, ?_⟩
  rw [h1]
  exact lookupReceipt_storeReceipt st.receipts (emitter, sequence)
    ⟨emitter, sequence, Pubkey.default, now, receipt_bump⟩

/-- C8 witness: the admin (key 10) records emitter 32×8 — which is NOT
the configured emitter 32×9 — and the stored receipt carries that
emitter verbatim with the zero `vaa_account` sentinel. -/
theorem claim_C8_witness :
    record_receipt_direct st0 ⟨10⟩ 254 1000 (List.replicate 32 8) 9 =
      .ok (⟨st0.cfg, storeReceipt st0.receipts (List.replicate 32 8, 9)
            ⟨List.replicate 32 8, 9, Pubkey.default, 1000, 254⟩⟩,
           [⟨List.replicate 32 8, 9, Pubkey.default⟩]) ∧
    (commitReceiptTx st0
      (record_receipt_direct st0 ⟨10⟩ 254 1000 (List.replicate 32 8) 9)).lookup
        (List.replicate 32 8, 9) =
      some ⟨List.replicate 32 8, 9, Pubkey.default, 1000, 254⟩ :=
  claim_C8_direct_receipt_fields st0 cfg0 ⟨10⟩ 254 1000 (List.replicate 32 8) 9 rfl rfl

/-- C9: neither `record_receipt_from_vaa` nor `record_receipt_direct`
ever changes the `ReceiptConfig` singleton: for every pre-state and
every argument vector, whether the call succeeds or fails, the committed
state's `cfg` equals the pre-state's `cfg`. -/
theorem claim_C9_config_frame (st : RegistryState) (ctx : VaaCtx)
    (admin_signer : Pubkey) (receipt_bump : Nat) (now : Int)
    (emitterA emitterB : EmitterAddr) (sequenceA sequenceB : Nat) :
    (commitReceiptTx st (record_receipt_from_vaa st ctx emitterA sequenceA)).cfg
      = st.cfg ∧
    (commitReceiptTx st
      (record_receipt_direct st admin_signer receipt_bump now emitterB sequenceB)).cfg
      = st.cfg := by
  constructor
  · cases hc : st.cfg with
    | none => simp [record_receipt_from_vaa, hc, commitReceiptTx]
    | some cfg =>
      by_cases h1 : ctx.posted_vaa_owner = ctx.wormhole_program
      · by_cases h2 : emitterA = cfg.emitter
        · simp [record_receipt_from_vaa, hc, h1, h2, commitReceiptTx]
        · simp [record_receipt_from_vaa, hc, h1, h2, commitReceiptTx]
      · simp [record_receipt_from_vaa, hc, h1, commitReceiptTx]
  · cases hc : st.cfg with
    | none => simp [record_receipt_direct, hc, commitReceiptTx]
    | some cfg =>
      by_cases h1 : cfg.admin = admin_signer
      · simp [record_receipt_direct, hc, h1, commitReceiptTx]
      · simp [record_receipt_direct, hc, h1, commitReceiptTx]

/-- C10: `init_receipt_config` has no authorization precondition beyond
the caller signing (and paying): whenever no `ReceiptConfig` exists,
ANY signing identity succeeds and its key is stored as
`ReceiptConfig.admin`; and once a config exists, every further call
fails at allocation — whichever identity calls first becomes the
administrator. -/
theorem claim_C10_first_caller_becomes_admin (st : RegistryState)
    (admin_signer : Pubkey) (cfg_bump evm_chain : Nat) (emitter : EmitterAddr)
    (h : st.cfg = none) :
    init_receipt_config st admin_signer cfg_bump evm_chain emitter =
      .ok ⟨some ⟨admin_signer, evm_chain, emitter, cfg_bump⟩, st.receipts⟩ ∧
    ∀ (st' : RegistryState) (c : ReceiptConfig), st'.cfg = some c →
      init_receipt_config st' admin_signer cfg_bump evm_chain emitter =
        .error .accountAlreadyInUse := by
  constructor
  · simp [init_receipt_config, h]
  · intro st' c hc
    simp [init_receipt_config, hc]

/-- C10 witness: on an empty ledger, caller key 10 becomes the admin;
afterwards any state holding a config rejects re-creation. -/
theorem claim_C10_witness :
    init_receipt_config ⟨none, []⟩ ⟨10⟩ 255 2 E0 =
      .ok ⟨some ⟨⟨10⟩, 2, E0, 255⟩, []⟩ ∧
    ∀ (st' : RegistryState) (c : ReceiptConfig), st'.cfg = some c →
      init_receipt_config st' ⟨10⟩ 255 2 E0 = .error .accountAlreadyInUse :=
  claim_C10_first_caller_becomes_admin ⟨none, []⟩ ⟨10⟩ 255 2 E0 rfl
